import Mathlib

/-!
Verification development for the WordBot repository (src/word.py and the
math-quiz module src/math_telegram.py + src/math_db.py).

Dates are modelled as integers (a day number); the source stores ISO date
strings and compares them with `<=`, which agrees with integer order on day
numbers. `local_date()` / `local_today()` become an explicit `today : Int`
parameter. SQLite rows become Lean structures; the in-memory database state
is a list of word rows plus an append-only stats log and a points map.
-/

namespace WordBot

/-- Points constants, src/word.py lines 74-77. -/
def POINTS_FOR_CORRECT : Int := 5

def POINTS_FOR_CORRECT_BLITZ : Int := 7

def POINTS_FOR_WRONG : Int := -4

def POINTS_FOR_ADDED : Int := 0

/-- Review thresholds, src/word.py lines 79-83. -/
def PROMOTE_THRESHOLD : Nat := 2

def RESET_THRESHOLD : Nat := 1

/-- A row of the `words` table (the columns used by the scheduling logic).
`next_review` is `none` for SQL NULL (eligible immediately). -/
structure WordRow where
  id : Nat
  user_id : Nat
  group_id : Option Nat
  english : String
  uzbek : String
  review_level : Nat
  next_review : Option Int
  correct_count : Nat
  last_correct_date : Option Int
  wrong_count : Nat
  deriving Repr, DecidableEq

/-- The promotion offset table inlined in `record_stat` (src/word.py
lines 1066-1074): pre-promotion level 0 gives 1 day, 1 gives 3, 2 gives 10,
anything else gives 30. -/
def promotionOffset (level : Nat) : Nat :=
  if level == 0 then 1
  else if level == 1 then 3
  else if level == 2 then 10
  else 30

/-- The word-row mutation of `record_stat` for a correct answer
(src/word.py lines 1062-1078): first UPDATE sets
`correct_count = new_count, last_correct_date = today, wrong_count = 0`;
if `new_count == 2` a second UPDATE promotes the level, sets
`next_review = today + offset(level)` and zeroes both counters. -/
def recordCorrectWord (today : Int) (w : WordRow) : WordRow :=
  let new_count := w.correct_count + 1
  let w1 := { w with correct_count := new_count
                     , last_correct_date := some today
                     , wrong_count := 0 }
  if new_count == 2 then
    let level := w.review_level
    let days_add := promotionOffset level
    { w1 with review_level := level + 1
              , next_review := some (today + (days_add : Int))
              , correct_count := 0
              , wrong_count := 0 }
  else w1

/-- The word-row mutation of `record_stat` for a wrong answer
(src/word.py lines 1079-1084): increment `wrong_count`; since the
incremented count is always `>= 1`, reset level to 0, `next_review`
to today, and both counters to 0. -/
def recordWrongWord (today : Int) (w : WordRow) : WordRow :=
  let new_wrong := w.wrong_count + 1
  let w1 := { w with wrong_count := new_wrong }
  if new_wrong ≥ 1 then
    { w1 with review_level := 0
              , next_review := some today
              , correct_count := 0
              , wrong_count := 0 }
  else w1

/-- Dispatch of the word-row mutation on the action string
(src/word.py lines 1062, 1079). -/
def updateWordRow (today : Int) (action : String) (w : WordRow) : WordRow :=
  if action == "correct" then recordCorrectWord today w
  else if action == "wrong" then recordWrongWord today w
  else w

/-- A row appended to the `stats` table by `record_stat`
(src/word.py lines 1054-1056). The `created_at` timestamp is omitted;
`local_date` carries the day number. -/
structure StatsEvent where
  user_id : Nat
  action : String
  word_id : Option Nat
  local_date : Int
  deriving Repr, DecidableEq

/-- The database state visible to `record_stat`: the `words` table, the
append-only `stats` table, and the `points` column of `users` as a map. -/
structure DbState where
  words : List WordRow
  stats : List StatsEvent
  points : Nat → Int

/-- The point delta chosen at the end of `record_stat`
(src/word.py lines 1085-1091). -/
def pointsDelta (action : String) (is_blitz : Bool) : Int :=
  if action == "added" then POINTS_FOR_ADDED
  else if action == "correct" then
    (if is_blitz then POINTS_FOR_CORRECT_BLITZ else POINTS_FOR_CORRECT)
  else if action == "wrong" then POINTS_FOR_WRONG
  else 0

/-- First statement of `record_stat` (src/word.py lines 1054-1056): append
the stats event. -/
def recordStatEvent (today : Int) (st : DbState) (user_id : Nat)
    (action : String) (word_id : Option Nat) : DbState :=
  { st with stats := st.stats ++ [⟨user_id, action, word_id, today⟩] }

/-- Inner body of the word-row block for a present word id: if the row
still exists, replace it by its mutation, else leave the table alone. -/
def recordStatWordGo (today : Int) (st : DbState) (action : String)
    (wid : Nat) : DbState :=
  if wid ≠ 0 then
    if (st.words.find? (fun w => w.id == wid)).isSome then
      let newWords := st.words.map
        (fun w => if w.id == wid then updateWordRow today action w else w)
      { st with words := newWords }
    else st
  else st

/-- Word-row block of `record_stat` (src/word.py lines 1057-1084): guarded
by Python truthiness of `word_id` (0 behaves as absent) and by the row
still existing; when it does, the row is replaced by its mutation. -/
def recordStatWord (today : Int) (st : DbState) (action : String)
    (word_id : Option Nat) : DbState :=
  match word_id with
  | some wid => recordStatWordGo today st action wid
  | none => st

/-- Points block of `record_stat` (src/word.py lines 1085-1093): when the
delta is nonzero, apply `points = MAX(points + delta, 0)` for the user. -/
def recordStatPoints (st : DbState) (user_id : Nat) (action : String)
    (is_blitz : Bool) : DbState :=
  let delta := pointsDelta action is_blitz
  if delta ≠ 0 then
    { st with points := fun u =>
        if u == user_id then max (st.points u + delta) 0 else st.points u }
  else st

/-- `record_stat` (src/word.py lines 1051-1093): the three blocks in the
order the source executes them. -/
def record_stat (today : Int) (st : DbState) (user_id : Nat) (action : String)
    (word_id : Option Nat) (is_blitz : Bool) : DbState :=
  recordStatPoints
    (recordStatWord today (recordStatEvent today st user_id action word_id)
      action word_id)
    user_id action is_blitz

/-- Eligibility filter of the cache-miss query in `pick_user_word`
(src/word.py lines 1018-1026): `next_review IS NULL OR next_review <= today`. -/
def isEligible (today : Int) (w : WordRow) : Bool :=
  match w.next_review with
  | none => true
  | some d => d ≤ today

/-- The eligible-word load of `pick_user_word` on a cache miss: scope by
group when a group id is given (Python truthiness on `group_id`), else by
owner. -/
def loadEligible (today : Int) (all : List WordRow) (user_id : Nat)
    (group_id : Option Nat) : List WordRow :=
  match group_id with
  | some g => all.filter (fun w => w.group_id == some g && isEligible today w)
  | none => all.filter (fun w => w.user_id == user_id && isEligible today w)

/-- `random.choice` modelled by an oracle index reduced modulo the list
length. -/
def choiceOracle (k : Nat) (l : List WordRow) : Option WordRow :=
  l.get? (k % l.length)

/-- The selection step of `pick_user_word` over the cached eligible list
(src/word.py lines 1028-1037). `last` is `LAST_ASKED.get(key)`; the Python
truthiness test `if last_id and len(words) > 1` makes id 0 behave as
absent. When excluding the last-asked id leaves candidates, choose among
them, else fall back to the whole list. -/
def pick_user_word (words : List WordRow) (last : Option Nat) (k : Nat) :
    Option WordRow :=
  if words.isEmpty then none
  else
    match last with
    | some last_id =>
      if last_id ≠ 0 ∧ words.length > 1 then
        let candidates := words.filter (fun w => w.id != last_id)
        if !candidates.isEmpty then choiceOracle k candidates
        else choiceOracle k words
      else choiceOracle k words
    | none => choiceOracle k words

/-- The fixed placeholder pool of `get_distractors`
(src/word.py line 1046). -/
def PLACEHOLDERS : List String :=
  ["nomuvofiq", "aniq emas", "bog\x27liq emas", "bilinmaydi"]

/-- The candidate values of the distractor SQL query
(src/word.py lines 1040-1043): `uzbek` of words in the scope with a
different id — exclusion is by id only, never by value. The random order
of `ORDER BY RANDOM()` is abstracted: callers pass any permutation. -/
def distractorCandidates (all : List WordRow) (user_id : Nat)
    (correct_word_id : Nat) (group_id : Option Nat) : List String :=
  match group_id with
  | some g =>
    (all.filter (fun w => w.group_id == some g && w.id != correct_word_id)).map
      (fun w => w.uzbek)
  | none =>
    (all.filter (fun w => w.user_id == user_id && w.id != correct_word_id)).map
      (fun w => w.uzbek)

/-- `get_distractors` (src/word.py lines 1039-1049): take at most `needed`
candidate values (SQL LIMIT over the random order `others`), then append
`random.choice(placeholders)` — oracle `pad` — until `needed` entries, and
return the first `needed`. -/
def get_distractors (others : List String) (pad : Nat → Nat) (needed : Nat) :
    List String :=
  let opts := others.take needed
  let padded := opts ++ (List.range (needed - opts.length)).map
    (fun i => PLACEHOLDERS.getD (pad i % PLACEHOLDERS.length) "")
  padded.take needed

/-- A BLITZ_SESSIONS entry (src/word.py lines 1515-1521). -/
structure BlitzSess where
  active : Bool
  correct : Nat
  wrong : Nat
  deriving Repr, DecidableEq

/-- Bot state for one user: the database plus the BLITZ_SESSIONS
entry; `none` means absent, in particular after the timer popped it. -/
structure BotState where
  db : DbState
  blitz : Option BlitzSess

/-- `blitz_time_up_job` (src/word.py lines 1524-1537): if the session is
still present, report the score and `BLITZ_SESSIONS.pop` it; if not,
return unchanged. The ACTIVE_POLLS entry of the outstanding poll is not
removed by this job. -/
def blitz_time_up_job (s : BotState) : BotState :=
  match s.blitz with
  | none => s
  | some _ => { s with blitz := none }

/-- The blitz path of `on_poll_answer` (src/word.py lines 3080-3133) for a
poll that is still in ACTIVE_POLLS: `record_stat` is called first and
unconditionally; only afterwards are the session counters incremented, and
only if `BLITZ_SESSIONS.get` still finds the session. -/
def on_poll_answer_blitz (today : Int) (s : BotState)
    (db_user_id word_id : Nat) (isCorrect : Bool) : BotState :=
  if isCorrect then
    let db1 := record_stat today s.db db_user_id "correct" (some word_id) true
    let blitz1 := match s.blitz with
      | some sess => some { sess with correct := sess.correct + 1 }
      | none => none
    { db := db1, blitz := blitz1 }
  else
    let db1 := record_stat today s.db db_user_id "wrong" (some word_id) false
    let blitz1 := match s.blitz with
      | some sess => some { sess with wrong := sess.wrong + 1 }
      | none => none
    { db := db1, blitz := blitz1 }

/-- The `math_quiz_session` dict stored per user
(src/math_telegram.py lines 269-277). -/
structure MathQuizData where
  num_questions : Nat
  current_index : Nat
  correct_count : Nat
  wrong_count : Nat
  deriving Repr, DecidableEq

/-- The counter and index update of `handle_quiz_answer`
(src/math_telegram.py lines 371-378). -/
def handle_quiz_answer (qd : MathQuizData) (is_correct : Bool) :
    MathQuizData :=
  let qd1 :=
    if is_correct then { qd with correct_count := qd.correct_count + 1 }
    else { qd with wrong_count := qd.wrong_count + 1 }
  { qd1 with current_index := qd1.current_index + 1 }

/-- `send_next_question` finishes the quiz when
`current_index >= len(questions)` (src/math_telegram.py lines 297-299). -/
def quizFinished (qd : MathQuizData) : Bool :=
  qd.current_index ≥ qd.num_questions

/-- The summary fields returned by `finish_quiz_session` that the claim
names (src/math_db.py lines 244-246 and 328-338). -/
structure QuizSummary where
  correct : Nat
  wrong : Nat
  percentage : ℚ
  deriving Repr, DecidableEq

/-- `finish_quiz_session` (src/math_db.py lines 238-246, 328-338):
`percentage = correct / total * 100` when `total > 0`, else 0; the
returned dict echoes the given counts. -/
def finish_quiz_session (correct_count wrong_count : Nat) : QuizSummary :=
  let total := correct_count + wrong_count
  let percentage : ℚ :=
    if total > 0 then (correct_count : ℚ) / (total : ℚ) * 100 else 0
  { correct := correct_count, wrong := wrong_count, percentage := percentage }

/-- Observable events for the cache-ordering analysis: a store write, the
transaction commit (exit of the `with db() as conn` block), a cache
invalidation (`WORDS_CACHE.clear()`), and the operation's return. -/
inductive DbEvent
  | write
  | commit
  | invalidate
  | ret
  deriving Repr, DecidableEq

/-- `add_word` (src/word.py lines 924-937): word insert, stats insert and
points update inside the transaction, commit at `with` exit, then
`WORDS_CACHE.clear()`, then return. -/
def add_word_trace : List DbEvent :=
  [.write, .write, .write, .commit, .invalidate, .ret]

/-- `delete_word_if_owner`, row-found path (src/word.py lines 981-988):
delete inside the transaction, commit, `WORDS_CACHE.clear()`, return. -/
def delete_word_trace : List DbEvent :=
  [.write, .commit, .invalidate, .ret]

/-- `delete_all_words`, success path (src/word.py lines 990-999). -/
def delete_all_words_trace : List DbEvent :=
  [.write, .commit, .invalidate, .ret]

/-- `delete_group`, success path (src/word.py lines 829-839): group delete
inside the transaction, commit, cache clears, return. -/
def delete_group_trace : List DbEvent :=
  [.write, .commit, .invalidate, .ret]

/-- `record_stat`, promotion path (src/word.py lines 1051-1078 and
1085-1093): stats insert, counter update, promotion update, then
`WORDS_CACHE.clear()` still inside the `with` block, points update, commit
at `with` exit, return. -/
def record_stat_promote_trace : List DbEvent :=
  [.write, .write, .write, .invalidate, .write, .commit, .ret]

/-- `record_stat`, demotion path (wrong answer; src/word.py lines
1079-1093): stats insert, wrong-count update, reset update, then
`WORDS_CACHE.clear()` still inside the `with` block, points update,
commit, return. -/
def record_stat_demote_trace : List DbEvent :=
  [.write, .write, .write, .invalidate, .write, .commit, .ret]

/-- Index of the first occurrence of an event in a trace (the trace length
when the event is absent). -/
def firstIdx (e : DbEvent) (tr : List DbEvent) : Nat :=
  tr.findIdx (fun x => x == e)

/-- The cache invalidation happens before the operation returns. -/
def invalidateBeforeReturn (tr : List DbEvent) : Prop :=
  firstIdx .invalidate tr < firstIdx .ret tr

/-- The cache invalidation happens strictly after the commit. -/
def invalidateAfterCommit (tr : List DbEvent) : Prop :=
  firstIdx .commit tr < firstIdx .invalidate tr

/-- Sample row: the word "cat" translated "mushuk", owned by user 7. -/
def catRow : WordRow :=
  ⟨1, 7, none, "cat", "mushuk", 0, none, 0, none, 0⟩

/-- Sample row: the word "dog" translated "it", owned by user 7. -/
def dogRow : WordRow :=
  ⟨2, 7, none, "dog", "it", 0, none, 0, none, 0⟩

/-- Sample row: the word "feline" whose translation collides with
the value "mushuk" of `catRow`, owned by user 7. -/
def felineRow : WordRow :=
  ⟨3, 7, none, "feline", "mushuk", 0, none, 0, none, 0⟩

/-- A state in which the blitz timer has already finalized the session:
`blitz_time_up_job` popped the BLITZ_SESSIONS entry, while the last poll
is still outstanding in ACTIVE_POLLS. -/
def finalizedState : BotState :=
  { db := { words := [catRow], stats := [], points := fun _ => 0 }
    , blitz := none }

/-- Scenario D run: a 5-question math quiz session after five answers,
three correct and two wrong, folded through `handle_quiz_answer`. -/
def quizScenarioD : MathQuizData :=
  [true, true, false, true, false].foldl handle_quiz_answer
    { num_questions := 5, current_index := 0
      , correct_count := 0, wrong_count := 0 }

/-- C1: from a word with streak 0 at level L, the first correct answer
changes neither the level nor the next-eligible date, and the second
consecutive correct answer promotes to L+1, sets the next-eligible date to
today plus the offset indexed by the pre-promotion level (0 gives 1 day,
1 gives 3, 2 gives 10, at least 3 gives 30) and zeroes the streak and the
wrong count. -/
theorem C1_promotion (t1 t2 : Int) (w : WordRow) (h : w.correct_count = 0) :
    (recordCorrectWord t1 w).next_review = w.next_review ∧
    (recordCorrectWord t1 w).review_level = w.review_level ∧
    (recordCorrectWord t2 (recordCorrectWord t1 w)).review_level
      = w.review_level + 1 ∧
    (recordCorrectWord t2 (recordCorrectWord t1 w)).next_review
      = some (t2 + (promotionOffset w.review_level : Int)) ∧
    (recordCorrectWord t2 (recordCorrectWord t1 w)).correct_count = 0 ∧
    (recordCorrectWord t2 (recordCorrectWord t1 w)).wrong_count = 0 ∧
    promotionOffset 0 = 1 ∧ promotionOffset 1 = 3 ∧
    promotionOffset 2 = 10 ∧ (∀ L, 3 ≤ L → promotionOffset L = 30) := by
  have h1 : recordCorrectWord t1 w =
      { w with correct_count := 1, last_correct_date := some t1
               , wrong_count := 0 } := by
    simp [recordCorrectWord, h]
  refine ⟨?_, ?_, ?_, ?_, ?_, ?_, rfl, rfl, rfl, ?_⟩
  · rw [h1]
  · rw [h1]
  · rw [h1]; simp [recordCorrectWord]
  · rw [h1]; simp [recordCorrectWord]
  · rw [h1]; simp [recordCorrectWord]
  · rw [h1]; simp [recordCorrectWord]
  · intro L hL
    have h0 : (L == 0) = false := by simp; omega
    have h1' : (L == 1) = false := by simp; omega
    have h2 : (L == 2) = false := by simp; omega
    simp [promotionOffset, h0, h1', h2]

/-- Witness for C1 at a concrete input: `catRow` has streak 0, and two
correct answers on day 0 promote it to level 1 with next-eligible day 1. -/
theorem C1_promotion_witness :
    catRow.correct_count = 0 ∧
    (recordCorrectWord 0 (recordCorrectWord 0 catRow)).review_level
      = catRow.review_level + 1 ∧
    (recordCorrectWord 0 (recordCorrectWord 0 catRow)).next_review
      = some (0 + (promotionOffset catRow.review_level : Int)) :=
  ⟨rfl, (C1_promotion 0 0 catRow rfl).2.2.1,
    (C1_promotion 0 0 catRow rfl).2.2.2.1⟩

/-- C2: a wrong answer always resets the level to 0, the next-eligible
date to today, and both the streak and the wrong count to 0, whatever the
prior streak or level. -/
theorem C2_wrong_resets (today : Int) (w : WordRow) :
    (recordWrongWord today w).review_level = 0 ∧
    (recordWrongWord today w).next_review = some today ∧
    (recordWrongWord today w).correct_count = 0 ∧
    (recordWrongWord today w).wrong_count = 0 := by
  have hge : w.wrong_count + 1 ≥ 1 := by omega
  simp [recordWrongWord, hge]

/-- C10: after the word-row mutation of `record_stat` for a correct or a
wrong answer, the stored wrong count is 0. -/
theorem C10_wrong_count_zero (today : Int) (action : String) (w : WordRow)
    (h : action = "correct" ∨ action = "wrong") :
    (updateWordRow today action w).wrong_count = 0 := by
  rcases h with h | h <;> subst h
  · have e1 : updateWordRow today "correct" w = recordCorrectWord today w := by
      simp [updateWordRow]
    rw [e1]
    simp only [recordCorrectWord]
    split <;> rfl
  · have e1 : updateWordRow today "wrong" w = recordWrongWord today w := by
      simp [updateWordRow]
    rw [e1]
    have hge : w.wrong_count + 1 ≥ 1 := by omega
    simp [recordWrongWord, hge]

/-- Witness for C10 at a concrete input: a correct answer on a row with a
pending wrong count leaves wrong count 0. -/
theorem C10_wrong_count_zero_witness :
    (updateWordRow 0 "correct"
      ⟨1, 7, none, "cat", "mushuk", 0, none, 0, none, 5⟩).wrong_count = 0 :=
  C10_wrong_count_zero 0 "correct" _ (Or.inl rfl)

theorem choiceOracle_mem {k : Nat} {l : List WordRow} {w : WordRow}
    (h : choiceOracle k l = some w) : w ∈ l := by
  unfold choiceOracle at h
  exact List.get?_mem h

/-- C5: when the eligible list has at least 2 words (with the distinct ids the database guarantees), the selection never returns the most recently asked word of
the same (user, scope). -/
theorem C5_no_immediate_repeat (words : List WordRow) (last_id k : Nat)
    (w : WordRow)
    (hnd : (words.map (fun x => x.id)).Nodup)
    (hlen : 2 ≤ words.length) (hid : last_id ≠ 0)
    (hpick : pick_user_word words (some last_id) k = some w) :
    w.id ≠ last_id := by
  have hne : words.isEmpty = false := by
    cases words with
    | nil => simp at hlen
    | cons a l => rfl
  unfold pick_user_word at hpick
  rw [hne] at hpick
  simp only [Bool.false_eq_true, if_false] at hpick
  rw [if_pos ⟨hid, by omega⟩] at hpick
  by_cases hc : (words.filter (fun x => x.id != last_id)).isEmpty
  · exfalso
    have hnil : words.filter (fun y => y.id != last_id) = [] :=
      List.isEmpty_iff.mp hc
    have hall : ∀ x ∈ words, x.id = last_id := by
      intro x hx
      have hx2 := List.filter_eq_nil_iff.mp hnil x hx
      simpa using hx2
    cases words with
    | nil => simp at hlen
    | cons a rest =>
      cases rest with
      | nil => simp at hlen
      | cons b t =>
        have ha : a.id = last_id := hall a (by simp)
        have hb : b.id = last_id := hall b (by simp)
        simp only [List.map_cons, List.nodup_cons, List.mem_cons] at hnd
        exact hnd.1 (Or.inl (ha.trans hb.symm))
  · rw [if_pos (by simpa using hc)] at hpick
    have hmem := choiceOracle_mem hpick
    have hf := List.mem_filter.mp hmem
    simpa using hf.2

/-- Witness for C5 at a concrete input: with eligible words cat and dog
and cat most recently asked, the selection returns dog. -/
theorem C5_no_immediate_repeat_witness :
    pick_user_word [catRow, dogRow] (some 1) 0 = some dogRow ∧
    dogRow.id ≠ 1 :=
  ⟨by decide,
    C5_no_immediate_repeat [catRow, dogRow] 1 0 dogRow (by decide) (by decide)
      (by decide) (by decide)⟩

/-- C4 counterexample: in a scope holding "cat/mushuk" and
"feline/mushuk", the distractor list generated for "cat" contains
"mushuk", the own target-language value of the correct answer — the SQL query
excludes candidates by id only, never by value. -/
theorem C4_counterexample :
    catRow.uzbek = "mushuk" ∧
    "mushuk" ∈ get_distractors
      (distractorCandidates [catRow, felineRow] 7 catRow.id none)
      (fun _ => 0) 3 := by
  constructor
  · rfl
  · decide

/-- C4 amended: the generator always returns exactly 3 distractors, each
drawn from another word of the scope (excluded by id, so a distractor can
coincide with the correct value when another word shares it) or from the
placeholder pool; in the 2-word scope "cat/mushuk", "dog/it", the
distractors for "cat" are "it" followed by 2 placeholder strings, all
distinct from the correct value "mushuk". -/
theorem C4_three_distractors (others : List String) (pad : Nat → Nat) :
    (get_distractors others pad 3).length = 3 ∧
    (∀ d ∈ get_distractors others pad 3, d ∈ others ∨ d ∈ PLACEHOLDERS) ∧
    (get_distractors (distractorCandidates [catRow, dogRow] 7 catRow.id none)
        pad 3).head? = some "it" ∧
    (∀ d ∈ get_distractors
        (distractorCandidates [catRow, dogRow] 7 catRow.id none) pad 3,
      d ≠ catRow.uzbek) := by
  have hplmem : ∀ j : Nat,
      PLACEHOLDERS.getD (j % PLACEHOLDERS.length) "" ∈ PLACEHOLDERS := by
    intro j
    have hlt : j % PLACEHOLDERS.length < PLACEHOLDERS.length :=
      Nat.mod_lt _ (by decide)
    rw [List.getD_eq_getElem _ _ hlt]
    exact List.getElem_mem hlt
  have hmem : ∀ (os : List String) (p : Nat → Nat) (d : String),
      d ∈ get_distractors os p 3 → d ∈ os ∨ d ∈ PLACEHOLDERS := by
    intro os p d hd
    unfold get_distractors at hd
    have hd2 := List.mem_of_mem_take hd
    rcases List.mem_append.mp hd2 with h | h
    · exact Or.inl (List.mem_of_mem_take h)
    · right
      obtain ⟨i, _, rfl⟩ := List.mem_map.mp h
      exact hplmem (p i)
  have hcand :
      distractorCandidates [catRow, dogRow] 7 catRow.id none = ["it"] := by
    decide
  have hit : get_distractors ["it"] pad 3
      = ["it", PLACEHOLDERS.getD (pad 0 % PLACEHOLDERS.length) "",
          PLACEHOLDERS.getD (pad 1 % PLACEHOLDERS.length) ""] := rfl
  refine ⟨?_, hmem others pad, ?_, ?_⟩
  · unfold get_distractors
    simp [List.length_take, List.length_append, List.length_range]
  · rw [hcand, hit]
    rfl
  · rw [hcand, hit]
    intro d hd
    have hpl : ∀ q ∈ PLACEHOLDERS, q ≠ ("mushuk" : String) := by decide
    simp only [List.mem_cons, List.not_mem_nil, or_false] at hd
    rcases hd with h | h | h
    · subst h; decide
    · subst h; exact hpl _ (hplmem (pad 0))
    · subst h; exact hpl _ (hplmem (pad 1))

/-- Witness for C4 at a concrete input: with a one-candidate pool and a
fixed padding oracle the generator returns exactly 3 distractors. -/
theorem C4_three_distractors_witness :
    (get_distractors ["it"] (fun _ => 0) 3).length = 3 :=
  (C4_three_distractors ["it"] (fun _ => 0)).1

/-- C3 counterexample: with the blitz session already finalized (popped by
the timer) but the last poll still outstanding, a submitted correct answer
is still scored: `record_stat` runs, appending a stats event and raising
the points of the user from 0 to 7. -/
theorem C3_counterexample :
    finalizedState.blitz = none ∧
    finalizedState.db.points 7 = 0 ∧
    (on_poll_answer_blitz 0 finalizedState 7 1 true).db.points 7 = 7 ∧
    finalizedState.db.stats = [] ∧
    (on_poll_answer_blitz 0 finalizedState 7 1 true).db.stats ≠ [] := by
  refine ⟨rfl, rfl, by decide, rfl, by decide⟩

/-- C3 amended: once the timer has finalized (removed) the blitz session,
a subsequent answer never creates or mutates session counters — the
registry entry stays absent — but the answer is still scored through an
unconditional `record_stat` call that mutates word stats and points. -/
theorem C3_after_finalize (today : Int) (s : BotState) (uid wid : Nat)
    (b : Bool) (h : s.blitz = none) :
    (on_poll_answer_blitz today s uid wid b).blitz = none ∧
    (on_poll_answer_blitz today s uid wid b).db =
      record_stat today s.db uid (if b then "correct" else "wrong")
        (some wid) b := by
  cases b <;> simp [on_poll_answer_blitz, h]

/-- Witness for C3 amended at a concrete input. -/
theorem C3_after_finalize_witness :
    (on_poll_answer_blitz 0 finalizedState 7 1 true).blitz = none :=
  (C3_after_finalize 0 finalizedState 7 1 true rfl).1

/-- C6 counterexample: in the promotion path of `record_stat` the cache
invalidation (`WORDS_CACHE.clear()`) happens inside the transaction,
before the commit, so the invalidation does not occur after the store
write commits. -/
theorem C6_counterexample :
    DbEvent.commit ∈ record_stat_promote_trace ∧
    DbEvent.invalidate ∈ record_stat_promote_trace ∧
    ¬ invalidateAfterCommit record_stat_promote_trace := by
  refine ⟨by decide, by decide, ?_⟩
  unfold invalidateAfterCommit firstIdx
  decide

/-- C6 amended: every mutating operation (insertion, deletion, bulk clear,
group deletion, promotion, demotion) invalidates the cache before
returning success, and the non-`record_stat` operations invalidate after
the commit; but in the promotion and demotion paths of `record_stat` the
invalidation occurs inside the transaction, before the commit. -/
theorem C6_invalidate_ordering :
    invalidateBeforeReturn add_word_trace ∧
    invalidateBeforeReturn delete_word_trace ∧
    invalidateBeforeReturn delete_all_words_trace ∧
    invalidateBeforeReturn delete_group_trace ∧
    invalidateBeforeReturn record_stat_promote_trace ∧
    invalidateBeforeReturn record_stat_demote_trace ∧
    invalidateAfterCommit add_word_trace ∧
    invalidateAfterCommit delete_word_trace ∧
    invalidateAfterCommit delete_all_words_trace ∧
    invalidateAfterCommit delete_group_trace ∧
    firstIdx DbEvent.invalidate record_stat_promote_trace <
      firstIdx DbEvent.commit record_stat_promote_trace ∧
    firstIdx DbEvent.invalidate record_stat_demote_trace <
      firstIdx DbEvent.commit record_stat_demote_trace := by
  unfold invalidateBeforeReturn invalidateAfterCommit firstIdx
  decide

/-- C7: when the word row no longer exists, `record_stat` still appends
the immutable stats event, skips the word-row mutation, and returns
normally (the embedding is a total function). -/
theorem recordStatWord_points (today : Int) (st : DbState) (act : String)
    (wid : Option Nat) :
    (recordStatWord today st act wid).points = st.points := by
  cases wid with
  | none => rfl
  | some wd =>
    show (recordStatWordGo today st act wd).points = st.points
    unfold recordStatWordGo
    split
    · split
      · rfl
      · rfl
    · rfl

theorem recordStatPoints_stats (st : DbState) (uid : Nat) (act : String)
    (b : Bool) : (recordStatPoints st uid act b).stats = st.stats := by
  by_cases h : pointsDelta act b ≠ 0
  · simp only [recordStatPoints, if_pos h]
  · simp only [recordStatPoints, if_neg h]

theorem recordStatPoints_words (st : DbState) (uid : Nat) (act : String)
    (b : Bool) : (recordStatPoints st uid act b).words = st.words := by
  by_cases h : pointsDelta act b ≠ 0
  · simp only [recordStatPoints, if_pos h]
  · simp only [recordStatPoints, if_neg h]

theorem C7_missing_row (today : Int) (st : DbState) (uid wid : Nat)
    (act : String) (b : Bool)
    (h : ∀ w ∈ st.words, w.id ≠ wid) :
    (record_stat today st uid act (some wid) b).stats =
      st.stats ++ [⟨uid, act, some wid, today⟩] ∧
    (record_stat today st uid act (some wid) b).words = st.words := by
  have hw : ∀ s2 : DbState, s2.words = st.words →
      recordStatWord today s2 act (some wid) = s2 := by
    intro s2 hs2
    have hfind : s2.words.find? (fun w => w.id == wid) = none := by
      rw [hs2]
      apply List.find?_eq_none.mpr
      intro x hx
      simpa using h x hx
    show recordStatWordGo today s2 act wid = s2
    unfold recordStatWordGo
    rw [hfind]
    simp
  refine ⟨?_, ?_⟩
  · unfold record_stat
    rw [hw (recordStatEvent today st uid act (some wid)) rfl,
      recordStatPoints_stats]
    rfl
  · unfold record_stat
    rw [hw (recordStatEvent today st uid act (some wid)) rfl,
      recordStatPoints_words]
    rfl

/-- Witness for C7 at a concrete input: word id 99 is absent, the word
table is untouched. -/
theorem C7_missing_row_witness :
    (record_stat 0 finalizedState.db 7 "correct" (some 99) true).words =
      finalizedState.db.words :=
  (C7_missing_row 0 finalizedState.db 7 99 "correct" true (by decide)).2

theorem recordStatPoints_points_eq (st : DbState) (uid : Nat) (act : String)
    (b : Bool) (u : Nat) :
    (recordStatPoints st uid act b).points u =
      if pointsDelta act b ≠ 0 then
        (if u == uid then max (st.points u + pointsDelta act b) 0
         else st.points u)
      else st.points u := by
  by_cases h : pointsDelta act b ≠ 0
  · simp only [recordStatPoints, if_pos h]
  · simp only [recordStatPoints, if_neg h]

theorem record_stat_points_eq (today : Int) (st : DbState) (uid : Nat)
    (act : String) (wid : Option Nat) (b : Bool) (u : Nat) :
    (record_stat today st uid act wid b).points u =
      if pointsDelta act b ≠ 0 then
        (if u == uid then max (st.points u + pointsDelta act b) 0
         else st.points u)
      else st.points u := by
  unfold record_stat
  rw [recordStatPoints_points_eq, recordStatWord_points]
  rfl

/-- C8: a blitz correct answer yields strictly more points than a
non-blitz one, a wrong answer yields the same delta in both modes, and a
nonnegative running total stays nonnegative after any `record_stat`
(each applied delta is floored at zero). -/
theorem C8_point_policy (today : Int) (st : DbState) (uid u : Nat)
    (wid : Option Nat) (act : String) (b : Bool)
    (h : 0 ≤ st.points u) :
    pointsDelta "correct" false < pointsDelta "correct" true ∧
    pointsDelta "wrong" true = pointsDelta "wrong" false ∧
    (pointsDelta act b ≠ 0 →
      (record_stat today st uid act wid b).points uid =
        max (st.points uid + pointsDelta act b) 0) ∧
    0 ≤ (record_stat today st uid act wid b).points u := by
  refine ⟨by decide, by decide, ?_, ?_⟩
  · intro hd
    rw [record_stat_points_eq]
    simp [hd]
  · rw [record_stat_points_eq]
    split
    · split
      · exact le_max_right _ _
      · exact h
    · exact h

/-- Witness for C8 at a concrete input. -/
theorem C8_point_policy_witness :
    0 ≤ (record_stat 0 finalizedState.db 7 "correct" (some 1) true).points 7 :=
  (C8_point_policy 0 finalizedState.db 7 7 (some 1) "correct" true
    (le_refl 0)).2.2.2

/-- C9: a 5-question quiz session, after 5 answers of which 3 are correct
and 2 wrong, is finished and its summary reports correct 3, wrong 2 and
percentage 60. -/
theorem C9_scenarioD :
    quizScenarioD.correct_count = 3 ∧
    quizScenarioD.wrong_count = 2 ∧
    quizScenarioD.current_index = 5 ∧
    quizFinished quizScenarioD = true ∧
    finish_quiz_session quizScenarioD.correct_count quizScenarioD.wrong_count
      = { correct := 3, wrong := 2, percentage := 60 } := by
  refine ⟨rfl, rfl, rfl, rfl, ?_⟩
  show finish_quiz_session 3 2 = { correct := 3, wrong := 2, percentage := 60 }
  unfold finish_quiz_session
  norm_num

end WordBot
